import Mathlib

/-!
Shallow embedding of the PDFium N-API addon (src/native/pdfium/src):
the handle registry (`g_documents`), the per-document page cache with
dirty tracking (`g_pageCache`), the flush/discard protocol, and the
document / render / object-edit operations built on them.

The external PDFium library is modelled as an oracle (`Pdfium`): a
record of pure functions giving the outcome of each library call.
Calls with observable resource effects are additionally recorded in an
event trace (`LibEvent`), so that statements such as "regeneration is
invoked on exactly the dirty entries" or "every cached page is closed"
are about the emitted trace, not merely about return values.

C++ `std::map` fields are modelled as association lists with
first-match lookup; insertion overwrites an existing key in place and
otherwise appends, erasure removes the key, matching `operator[]`,
`insert_or_assign` and `erase` on a map with unique keys.
-/

namespace PdfEditor

/-- First-match lookup in an association list (`std::map::find`). -/
def lookupA {α β : Type} [DecidableEq α] : List (α × β) → α → Option β
  | [], _ => none
  | (k, v) :: rest, a => if a = k then some v else lookupA rest a

/-- Insert or overwrite a key (`std::map::operator[] =`). -/
def insertA {α β : Type} [DecidableEq α] : List (α × β) → α → β → List (α × β)
  | [], a, b => [(a, b)]
  | (k, v) :: rest, a, b =>
      if a = k then (k, b) :: rest else (k, v) :: insertA rest a b

/-- Remove a key (`std::map::erase`). -/
def eraseA {α β : Type} [DecidableEq α] : List (α × β) → α → List (α × β)
  | [], _ => []
  | (k, v) :: rest, a =>
      if a = k then eraseA rest a else (k, v) :: eraseA rest a

/-- Opaque integer handle issued by the registry (C++ `int`). -/
abbrev Handle := Int

/-- Page index within a document (C++ `int`). -/
abbrev PageIndex := Int

/-- Opaque identifier for an open `FPDF_PAGE` resource of the library. -/
abbrev PageRes := Nat

/-- Opaque identifier for an open `FPDF_DOCUMENT` resource of the library. -/
abbrev DocRes := Nat

/-- common.h `struct CachedPage`: a page kept open after editing, with
its dirty flag (`needs FPDFPage_GenerateContent before save`). -/
structure CachedPage where
  page  : PageRes
  dirty : Bool
deriving DecidableEq, Repr

/-- Inner map of `g_pageCache`: pageIndex → CachedPage. -/
abbrev DocCache := List (PageIndex × CachedPage)

/-- `g_pageCache : std::map<int, std::map<int, CachedPage>>`. -/
abbrev Cache := List (Handle × DocCache)

/-- The global mutable state of the addon: `g_documents`, `g_pageCache`,
`g_nextHandle` (addon.cc lines 16-18). -/
structure AddonState where
  documents  : List (Handle × DocRes)
  pageCache  : Cache
  nextHandle : Handle
deriving DecidableEq, Repr

/-- Observable calls into the external library that manage or mutate
resources; operations emit these in order. -/
inductive LibEvent
  | loadPage (d : DocRes) (i : PageIndex)
  | closePage (p : PageRes)
  | generateContent (p : PageRes)
  | closeDocument (d : DocRes)
  | saveAsCopy (d : DocRes)
  | setText (p : PageRes) (objectId : Int)
  | loadJpegInline (p : PageRes) (objectId : Int)
  | setBitmap (p : PageRes) (objectId : Int)
deriving DecidableEq, Repr

/-- A JavaScript exception thrown through N-API, by class and message:
`Napi::Error`, `Napi::TypeError`, `Napi::RangeError`. -/
inductive JsError
  | error (msg : String)
  | typeError (msg : String)
  | rangeError (msg : String)
deriving DecidableEq, Repr

/-- The external PDFium library as a deterministic oracle: each field
gives the outcome of one library entry point.  Rasterization and
content-stream internals are out of scope and live behind these
functions. -/
structure Pdfium where
  /-- `FPDF_LoadMemDocument` (bytes, optional password): `none` = load failed. -/
  loadMemDocument : List Nat → Option String → Option DocRes
  /-- `FPDF_GetLastError` after a failed load. -/
  lastError : Nat
  /-- `FPDF_GetPageCount`. -/
  getPageCount : DocRes → Int
  /-- `FPDF_LoadPage`: `none` = the page could not be materialized. -/
  loadPage : DocRes → PageIndex → Option PageRes
  /-- `FPDFPage_GenerateContent`: whether regeneration of this page succeeds. -/
  generateContent : PageRes → Bool
  /-- `FPDF_SaveAsCopy`: the chunks handed to the write callback, `none` = failure. -/
  saveAsCopy : DocRes → Option (List (List Nat))
  /-- `FPDFPage_CountObjects`. -/
  countObjects : PageRes → Int
  /-- `FPDFPageObj_GetType`. -/
  objectType : PageRes → Int → Int
  /-- `FPDFPageObj_GetBounds`: (left, bottom, right, top). -/
  objectBounds : PageRes → Int → ℚ × ℚ × ℚ × ℚ
  /-- `FPDFText_LoadPage`: whether a text page could be loaded. -/
  textPageOk : PageRes → Bool
  /-- `FPDFTextObj_GetText` through the text page, decoded from UTF-16LE. -/
  objText : PageRes → Int → String
  /-- `FPDFText_SetText`: whether setting the text content succeeds. -/
  setTextOk : PageRes → Int → String → Bool
  /-- `FPDFImageObj_LoadJpegFileInline`: success of the inline JPEG load. -/
  loadJpegInlineOk : PageRes → Int → List Nat → Bool
  /-- `FPDFBitmap_CreateEx` over caller pixels (width, height): success. -/
  createBitmapExOk : Int → Int → Bool
  /-- `FPDFImageObj_SetBitmap`: success. -/
  setBitmapOk : PageRes → Int → Bool
  /-- `FPDF_GetPageWidthF`, in points. -/
  pageWidthPt : PageRes → ℚ
  /-- `FPDF_GetPageHeightF`, in points. -/
  pageHeightPt : PageRes → ℚ
  /-- `FPDFBitmap_Create` (width, height, alpha=1): success. -/
  bitmapCreateOk : Int → Int → Bool
  /-- `FPDFBitmap_GetStride` of a bitmap of the given width and height. -/
  bitmapStride : Int → Int → Nat
  /-- Byte at an index of the BGRA buffer after `FPDFBitmap_FillRect`
  (opaque white) and `FPDF_RenderPageBitmap` of the page at the given
  pixel size with `RENDER_FLAGS`. -/
  renderPageBitmap : PageRes → Int → Int → Nat → Nat

/-- fpdf_edit.h object type code: text. -/
def FPDF_PAGEOBJ_TEXT : Int := 1

/-- fpdf_edit.h object type code: path. -/
def FPDF_PAGEOBJ_PATH : Int := 2

/-- fpdf_edit.h object type code: image. -/
def FPDF_PAGEOBJ_IMAGE : Int := 3

/-- fpdf_edit.h object type code: shading. -/
def FPDF_PAGEOBJ_SHADING : Int := 4

/-- fpdf_edit.h object type code: form. -/
def FPDF_PAGEOBJ_FORM : Int := 5

/-- objects.cc `GetObjectTypeName`. -/
def GetObjectTypeName (type : Int) : String :=
  if type = FPDF_PAGEOBJ_TEXT then "text"
  else if type = FPDF_PAGEOBJ_PATH then "path"
  else if type = FPDF_PAGEOBJ_IMAGE then "image"
  else if type = FPDF_PAGEOBJ_SHADING then "shading"
  else if type = FPDF_PAGEOBJ_FORM then "form"
  else "unknown"

/-- document.cc `GetPdfiumErrorMessage` over `FPDF_GetLastError` codes. -/
def GetPdfiumErrorMessage (err : Nat) : String :=
  if err = 0 then "Success"
  else if err = 1 then "Unknown error"
  else if err = 2 then "File not found or could not be opened"
  else if err = 3 then "Invalid or corrupted PDF format"
  else if err = 4 then "Password required or incorrect password"
  else if err = 5 then "Unsupported security scheme"
  else if err = 6 then "Page not found or content error"
  else "Unrecognised PDFium error"

/-- addon.cc `RequireDocument`: look the handle up in `g_documents`,
throwing `Invalid document handle: <h>` when absent. -/
def RequireDocument (st : AddonState) (handle : Handle) : Except JsError DocRes :=
  match lookupA st.documents handle with
  | none => .error (.error ("Invalid document handle: " ++ toString handle))
  | some d => .ok d

/-- addon.cc `AcquirePage`: a cached page is returned with
`fromCache = true`; otherwise `FPDF_LoadPage` is attempted.
Result: (page or load failure, fromCache, events). -/
def AcquirePage (pdf : Pdfium) (st : AddonState) (handle : Handle)
    (doc : DocRes) (pageIndex : PageIndex) :
    Option PageRes × Bool × List LibEvent :=
  match lookupA st.pageCache handle with
  | some dc =>
    match lookupA dc pageIndex with
    | some cp => (some cp.page, true, [])
    | none => (pdf.loadPage doc pageIndex, false, [.loadPage doc pageIndex])
  | none => (pdf.loadPage doc pageIndex, false, [.loadPage doc pageIndex])

/-- addon.cc `ReleasePage`: cached pages stay open; non-cached pages
are closed immediately. -/
def ReleasePage (_handle : Handle) (_pageIndex : PageIndex)
    (page : PageRes) (fromCache : Bool) : List LibEvent :=
  if fromCache then [] else [.closePage page]

/-- addon.cc `CachePageDirty`:
`g_pageCache[handle][pageIndex] = \x7b page, true \x7d`. -/
def CachePageDirty (st : AddonState) (handle : Handle)
    (pageIndex : PageIndex) (page : PageRes) : AddonState :=
  let inner := (lookupA st.pageCache handle).getD []
  { st with pageCache :=
      insertA st.pageCache handle (insertA inner pageIndex ⟨page, true⟩) }

/-- The loop body of `FlushAndCloseCachedPages` over the entries of one document: regenerate each dirty page (recording failure but continuing),
close every page, and report whether all regenerations succeeded. -/
def flushLoop (pdf : Pdfium) : DocCache → List LibEvent × Bool
  | [] => ([], true)
  | (_, cp) :: rest =>
    let thisEvs := if cp.dirty then [LibEvent.generateContent cp.page] else []
    let thisOk := if cp.dirty then pdf.generateContent cp.page else true
    let r := flushLoop pdf rest
    (thisEvs ++ [.closePage cp.page] ++ r.1, thisOk && r.2)

/-- addon.cc `FlushAndCloseCachedPages`: regenerate every dirty cached
page of the handle, close all of its cached pages, erase the entries of the handle, and return whether all regenerations succeeded (true when the
handle has no cached entries). -/
def FlushAndCloseCachedPages (pdf : Pdfium) (st : AddonState) (handle : Handle) :
    AddonState × List LibEvent × Bool :=
  match lookupA st.pageCache handle with
  | none => (st, [], true)
  | some dc =>
    let r := flushLoop pdf dc
    ({ st with pageCache := eraseA st.pageCache handle }, r.1, r.2)

/-- addon.cc `DiscardCachedPages`: close every cached page of the
handle without regenerating content, then erase its entries. -/
def DiscardCachedPages (st : AddonState) (handle : Handle) :
    AddonState × List LibEvent :=
  match lookupA st.pageCache handle with
  | none => (st, [])
  | some dc =>
    ({ st with pageCache := eraseA st.pageCache handle },
     dc.map (fun e => .closePage e.2.page))

/-- document.cc `OpenDocument` (post-marshalling): load the document
from the byte buffer (with optional password), on failure throw the
`GetPdfiumErrorMessage` of `FPDF_GetLastError`, otherwise register it
under a fresh handle. -/
def OpenDocument (pdf : Pdfium) (st : AddonState)
    (bytes : List Nat) (password : Option String) :
    AddonState × Except JsError Handle :=
  match pdf.loadMemDocument bytes password with
  | none => (st, .error (.error (GetPdfiumErrorMessage pdf.lastError)))
  | some doc =>
    let handle := st.nextHandle
    ({ st with
        documents := insertA st.documents handle doc,
        nextHandle := st.nextHandle + 1 },
     .ok handle)

/-- document.cc `CloseDocument` (post-marshalling): on an unknown
handle throw `closeDocument: invalid handle <h>`; otherwise discard the
cached pages of the handle, close the document resource and erase the
handle. -/
def CloseDocument (st : AddonState) (handle : Handle) :
    AddonState × List LibEvent × Except JsError Unit :=
  match lookupA st.documents handle with
  | none =>
    (st, [],
     .error (.error ("closeDocument: invalid handle " ++ toString handle)))
  | some doc =>
    let r := DiscardCachedPages st handle
    ({ r.1 with documents := eraseA r.1.documents handle },
     r.2 ++ [.closeDocument doc], .ok ())

/-- document.cc `GetPageCount` (post-marshalling): resolve the handle,
then delegate to `FPDF_GetPageCount`. -/
def GetPageCount (pdf : Pdfium) (st : AddonState) (handle : Handle) :
    Except JsError Int :=
  match RequireDocument st handle with
  | .error e => .error e
  | .ok doc => .ok (pdf.getPageCount doc)

/-- document.cc `SaveDocument` (post-marshalling): resolve the handle,
flush the cached dirty pages, abort with a `GenerateContent` error when
the flush reports failure, otherwise serialize via `FPDF_SaveAsCopy`
into the `BufferWriter` (whose `WriteBlockCallback` appends each chunk)
and return the accumulated bytes. -/
def SaveDocument (pdf : Pdfium) (st : AddonState) (handle : Handle) :
    AddonState × List LibEvent × Except JsError (List Nat) :=
  match RequireDocument st handle with
  | .error e => (st, [], .error e)
  | .ok doc =>
    let f := FlushAndCloseCachedPages pdf st handle
    if f.2.2 = false then
      (f.1, f.2.1,
       .error (.error
         "saveDocument: FPDFPage_GenerateContent failed for a dirty page"))
    else
      match pdf.saveAsCopy doc with
      | none =>
        (f.1, f.2.1 ++ [.saveAsCopy doc],
         .error (.error "saveDocument: FPDF_SaveAsCopy failed"))
      | some chunks =>
        (f.1, f.2.1 ++ [.saveAsCopy doc], .ok chunks.flatten)

/-- One element of the `listPageObjects` result: id, type name, bounds,
and the text content (present only for text objects whose text page
loaded). -/
structure PageObjectInfo where
  id : Int
  type : String
  left : ℚ
  top : ℚ
  right : ℚ
  bottom : ℚ
  text : Option String
deriving DecidableEq, Repr

/-- One iteration of the `ListPageObjects` loop: type name, bounds, and
text extraction for text objects when the text page is available. -/
def listEntry (pdf : Pdfium) (page : PageRes) (i : Int) : PageObjectInfo :=
  let type := pdf.objectType page i
  let b := pdf.objectBounds page i
  { id := i
    type := GetObjectTypeName type
    left := b.1
    top := b.2.2.2
    right := b.2.2.1
    bottom := b.2.1
    text :=
      if type = FPDF_PAGEOBJ_TEXT ∧ pdf.textPageOk page then
        some (pdf.objText page i)
      else none }

/-- objects.cc `ListPageObjects` (post-marshalling): resolve the
handle, acquire the page (cache hit or fresh load), enumerate the
objects of the page, and release the page via the normal cache contract. -/
def ListPageObjects (pdf : Pdfium) (st : AddonState)
    (handle : Handle) (pageIndex : PageIndex) :
    AddonState × List LibEvent × Except JsError (List PageObjectInfo) :=
  match RequireDocument st handle with
  | .error e => (st, [], .error e)
  | .ok doc =>
    match AcquirePage pdf st handle doc pageIndex with
    | (none, _, evs) =>
      (st, evs,
       .error (.error
         ("listPageObjects: failed to load page " ++ toString pageIndex)))
    | (some page, fromCache, evs) =>
      let objCount := pdf.countObjects page
      let result :=
        (List.range objCount.toNat).map
          (fun i => listEntry pdf page (Int.ofNat i))
      (st, evs ++ ReleasePage handle pageIndex page fromCache, .ok result)

/-- objects.cc `EditTextObject` (post-marshalling): resolve the handle,
acquire the page, validate the object id range and that the object is a
text object, set the text; on success cache the page dirty (content
regeneration is deferred to save time), on any failure release the page
and propagate. -/
def EditTextObject (pdf : Pdfium) (st : AddonState)
    (handle : Handle) (pageIndex : PageIndex) (objectId : Int)
    (newText : String) :
    AddonState × List LibEvent × Except JsError Unit :=
  match RequireDocument st handle with
  | .error e => (st, [], .error e)
  | .ok doc =>
    match AcquirePage pdf st handle doc pageIndex with
    | (none, _, evs) =>
      (st, evs,
       .error (.error
         ("editTextObject: failed to load page " ++ toString pageIndex)))
    | (some page, fromCache, evs) =>
      let objCount := pdf.countObjects page
      if objectId < 0 ∨ objCount ≤ objectId then
        (st, evs ++ ReleasePage handle pageIndex page fromCache,
         .error (.rangeError
           ("editTextObject: objectId " ++ toString objectId ++
            " out of range [0, " ++ toString (objCount - 1) ++ "]")))
      else if pdf.objectType page objectId ≠ FPDF_PAGEOBJ_TEXT then
        (st, evs ++ ReleasePage handle pageIndex page fromCache,
         .error (.typeError
           ("editTextObject: object " ++ toString objectId ++
            " is not a text object")))
      else if pdf.setTextOk page objectId newText = false then
        (st, evs ++ [.setText page objectId] ++
           ReleasePage handle pageIndex page fromCache,
         .error (.error "editTextObject: FPDFText_SetText failed"))
      else
        (CachePageDirty st handle pageIndex page,
         evs ++ [.setText page objectId], .ok ())

/-- objects.cc `ReplaceImageObject` (post-marshalling): resolve the
handle, acquire the page, validate object id range and image type; only
format `jpeg` is accepted (inline JPEG load), any other format releases
the page and throws; on mutation failure release the page and throw; on
success cache the page dirty. -/
def ReplaceImageObject (pdf : Pdfium) (st : AddonState)
    (handle : Handle) (pageIndex : PageIndex) (objectId : Int)
    (imageData : List Nat) (fmt : String) :
    AddonState × List LibEvent × Except JsError Unit :=
  match RequireDocument st handle with
  | .error e => (st, [], .error e)
  | .ok doc =>
    match AcquirePage pdf st handle doc pageIndex with
    | (none, _, evs) =>
      (st, evs,
       .error (.error
         ("replaceImageObject: failed to load page " ++ toString pageIndex)))
    | (some page, fromCache, evs) =>
      let objCount := pdf.countObjects page
      if objectId < 0 ∨ objCount ≤ objectId then
        (st, evs ++ ReleasePage handle pageIndex page fromCache,
         .error (.rangeError
           ("replaceImageObject: objectId " ++ toString objectId ++
            " out of range [0, " ++ toString (objCount - 1) ++ "]")))
      else if pdf.objectType page objectId ≠ FPDF_PAGEOBJ_IMAGE then
        (st, evs ++ ReleasePage handle pageIndex page fromCache,
         .error (.typeError
           ("replaceImageObject: object " ++ toString objectId ++
            " is not an image object")))
      else if fmt = "jpeg" then
        if pdf.loadJpegInlineOk page objectId imageData then
          (CachePageDirty st handle pageIndex page,
           evs ++ [.loadJpegInline page objectId], .ok ())
        else
          (st, evs ++ [.loadJpegInline page objectId] ++
             ReleasePage handle pageIndex page fromCache,
           .error (.error
             "replaceImageObject: failed to load replacement image"))
      else
        (st, evs ++ ReleasePage handle pageIndex page fromCache,
         .error (.error
           ("replaceImageObject: only \x27jpeg\x27 format is currently " ++
            "supported. Convert other formats to JPEG before calling " ++
            "this function.")))

/-- objects.cc `ReplaceImageObjectBitmap` (post-marshalling): validate
the pixel buffer size (before the handle lookup, as in the source),
resolve the handle, acquire the page, validate object id and image
type, create the BGRA bitmap and set it; on success cache the page
dirty, on any failure release the page and propagate. -/
def ReplaceImageObjectBitmap (pdf : Pdfium) (st : AddonState)
    (handle : Handle) (pageIndex : PageIndex) (objectId : Int)
    (bgraData : List Nat) (width : Int) (height : Int) :
    AddonState × List LibEvent × Except JsError Unit :=
  let expectedSize := width * height * 4
  if (bgraData.length : Int) < expectedSize then
    (st, [],
     .error (.rangeError
       ("replaceImageObjectBitmap: bgraData buffer too small. Expected " ++
        toString expectedSize ++ " bytes for " ++ toString width ++ "x" ++
        toString height ++ " BGRA")))
  else
    match RequireDocument st handle with
    | .error e => (st, [], .error e)
    | .ok doc =>
      match AcquirePage pdf st handle doc pageIndex with
      | (none, _, evs) =>
        (st, evs,
         .error (.error
           ("replaceImageObjectBitmap: failed to load page " ++
            toString pageIndex)))
      | (some page, fromCache, evs) =>
        let objCount := pdf.countObjects page
        if objectId < 0 ∨ objCount ≤ objectId then
          (st, evs ++ ReleasePage handle pageIndex page fromCache,
           .error (.rangeError
             ("replaceImageObjectBitmap: objectId " ++ toString objectId ++
              " out of range [0, " ++ toString (objCount - 1) ++ "]")))
        else if pdf.objectType page objectId ≠ FPDF_PAGEOBJ_IMAGE then
          (st, evs ++ ReleasePage handle pageIndex page fromCache,
           .error (.typeError
             ("replaceImageObjectBitmap: object " ++ toString objectId ++
              " is not an image object")))
        else if pdf.createBitmapExOk width height = false then
          (st, evs ++ ReleasePage handle pageIndex page fromCache,
           .error (.error
             "replaceImageObjectBitmap: FPDFBitmap_CreateEx failed"))
        else if pdf.setBitmapOk page objectId = false then
          (st, evs ++ [.setBitmap page objectId] ++
             ReleasePage handle pageIndex page fromCache,
           .error (.error
             "replaceImageObjectBitmap: FPDFImageObj_SetBitmap failed"))
        else
          (CachePageDirty st handle pageIndex page,
           evs ++ [.setBitmap page objectId], .ok ())

/-- C++ `static_cast<int>` on a real value: truncation toward zero. -/
def truncToInt (q : ℚ) : Int := if 0 ≤ q then ⌊q⌋ else ⌈q⌉

/-- Result of `renderPage`: tightly packed row-major RGBA bytes and the
pixel dimensions. -/
structure RenderResult where
  data : List Nat
  width : Int
  height : Int
deriving DecidableEq, Repr

/-- The BGRA→RGBA copy loop of render.cc: for each row `y` and pixel
`x`, read 4 source bytes at `y * stride + x * 4` and write them in
R,G,B,A order into the tightly packed destination. -/
def convertBGRAtoRGBA (src : Nat → Nat) (stride : Nat)
    (width height : Nat) : List Nat :=
  (List.range height).flatMap (fun y =>
    (List.range width).flatMap (fun x =>
      let si := y * stride + x * 4
      [src (si + 2), src (si + 1), src si, src (si + 3)]))

/-- render.cc `RenderPage` (post-marshalling): resolve the handle,
validate the page index against the page count and `scale > 0`, acquire
the page, compute pixel dimensions as
`static_cast<int>(pageDimensionPt * scale + 0.5)`, fail when either is
not positive, create the bitmap, render, convert BGRA to tightly packed
RGBA, and release the page via the normal cache contract. -/
def RenderPage (pdf : Pdfium) (st : AddonState)
    (handle : Handle) (pageIndex : PageIndex) (scale : ℚ) :
    AddonState × List LibEvent × Except JsError RenderResult :=
  match RequireDocument st handle with
  | .error e => (st, [], .error e)
  | .ok doc =>
    let pageCount := pdf.getPageCount doc
    if pageIndex < 0 ∨ pageCount ≤ pageIndex then
      (st, [],
       .error (.rangeError
         ("renderPage: pageIndex " ++ toString pageIndex ++
          " out of range [0, " ++ toString (pageCount - 1) ++ "]")))
    else if scale ≤ 0 then
      (st, [], .error (.rangeError "renderPage: scale must be > 0"))
    else
      match AcquirePage pdf st handle doc pageIndex with
      | (none, _, evs) =>
        (st, evs,
         .error (.error
           ("renderPage: failed to load page " ++ toString pageIndex)))
      | (some page, fromCache, evs) =>
        let width := truncToInt (pdf.pageWidthPt page * scale + 1/2)
        let height := truncToInt (pdf.pageHeightPt page * scale + 1/2)
        if width ≤ 0 ∨ height ≤ 0 then
          (st, evs ++ ReleasePage handle pageIndex page fromCache,
           .error (.error "renderPage: resulting bitmap size is zero"))
        else if pdf.bitmapCreateOk width height = false then
          (st, evs ++ ReleasePage handle pageIndex page fromCache,
           .error (.error "renderPage: FPDFBitmap_Create failed"))
        else
          let stride := pdf.bitmapStride width height
          let data := convertBGRAtoRGBA
            (pdf.renderPageBitmap page width height) stride
            width.toNat height.toNat
          (st, evs ++ ReleasePage handle pageIndex page fromCache,
           .ok { data := data, width := width, height := height })

/-- One invocation of an exported addon function (addon.cc `Init`),
with its already-marshalled arguments. -/
inductive Op
  | openDocument (bytes : List Nat) (password : Option String)
  | closeDocument (handle : Handle)
  | getPageCount (handle : Handle)
  | saveDocument (handle : Handle)
  | renderPage (handle : Handle) (pageIndex : PageIndex) (scale : ℚ)
  | listPageObjects (handle : Handle) (pageIndex : PageIndex)
  | editTextObject (handle : Handle) (pageIndex : PageIndex)
      (objectId : Int) (newText : String)
  | replaceImageObject (handle : Handle) (pageIndex : PageIndex)
      (objectId : Int) (imageData : List Nat) (fmt : String)
  | replaceImageObjectBitmap (handle : Handle) (pageIndex : PageIndex)
      (objectId : Int) (bgraData : List Nat) (width : Int) (height : Int)

/-- The successful result value of an exported operation. -/
inductive OutVal
  | unit
  | handle (h : Handle)
  | num (n : Int)
  | bytes (b : List Nat)
  | objects (l : List PageObjectInfo)
  | render (r : RenderResult)
deriving DecidableEq, Repr

/-- Dispatch one exported operation against the addon state. -/
def runOp (pdf : Pdfium) (st : AddonState) :
    Op → AddonState × List LibEvent × Except JsError OutVal
  | .openDocument bytes password =>
    let r := OpenDocument pdf st bytes password
    (r.1, [], r.2.map .handle)
  | .closeDocument handle =>
    let r := CloseDocument st handle
    (r.1, r.2.1, r.2.2.map (fun _ => .unit))
  | .getPageCount handle =>
    (st, [], (GetPageCount pdf st handle).map .num)
  | .saveDocument handle =>
    let r := SaveDocument pdf st handle
    (r.1, r.2.1, r.2.2.map .bytes)
  | .renderPage handle pageIndex scale =>
    let r := RenderPage pdf st handle pageIndex scale
    (r.1, r.2.1, r.2.2.map .render)
  | .listPageObjects handle pageIndex =>
    let r := ListPageObjects pdf st handle pageIndex
    (r.1, r.2.1, r.2.2.map .objects)
  | .editTextObject handle pageIndex objectId newText =>
    let r := EditTextObject pdf st handle pageIndex objectId newText
    (r.1, r.2.1, r.2.2.map (fun _ => .unit))
  | .replaceImageObject handle pageIndex objectId imageData fmt =>
    let r := ReplaceImageObject pdf st handle pageIndex objectId imageData fmt
    (r.1, r.2.1, r.2.2.map (fun _ => .unit))
  | .replaceImageObjectBitmap handle pageIndex objectId bgraData width height =>
    let r := ReplaceImageObjectBitmap pdf st handle pageIndex objectId
      bgraData width height
    (r.1, r.2.1, r.2.2.map (fun _ => .unit))

/-- Every entry of the page cache has its dirty flag set. -/
def allDirty (c : Cache) : Bool :=
  c.all (fun hd => hd.2.all (fun pe => pe.2.dirty))

/-- The pages on which a trace invoked `FPDFPage_GenerateContent`, in
order. -/
def gensOf (evs : List LibEvent) : List PageRes :=
  evs.filterMap (fun e => match e with
    | .generateContent p => some p
    | _ => none)

/-- The pages a trace closed via `FPDF_ClosePage`, in order. -/
def closesOf (evs : List LibEvent) : List PageRes :=
  evs.filterMap (fun e => match e with
    | .closePage p => some p
    | _ => none)

/-- Whether a trace contains a `FPDF_SaveAsCopy` invocation. -/
def hasSaveEvent (evs : List LibEvent) : Bool :=
  evs.any (fun e => match e with
    | .saveAsCopy _ => true
    | _ => false)

/-- Whether a trace contains any object-mutation library call
(`FPDFText_SetText`, `FPDFImageObj_LoadJpegFileInline`,
`FPDFImageObj_SetBitmap`). -/
def hasMutationEvent (evs : List LibEvent) : Bool :=
  evs.any (fun e => match e with
    | .setText _ _ => true
    | .loadJpegInline _ _ => true
    | .setBitmap _ _ => true
    | _ => false)

/-- The error `RequireDocument` throws for an unknown handle — the
`NotFoundError` of the spec. -/
def invalidHandleError (handle : Handle) : JsError :=
  .error ("Invalid document handle: " ++ toString handle)

/-- A concrete oracle for witness instances: documents load to resource
10, page (doc, i) loads to resource `100 + doc + |i|`, regeneration
fails exactly on page resource 7, every other library call succeeds. -/
def pdfW : Pdfium where
  loadMemDocument := fun _ _ => some 10
  lastError := 0
  getPageCount := fun _ => 3
  loadPage := fun d i => some (100 + d + i.natAbs)
  generateContent := fun p => p ≠ 7
  saveAsCopy := fun _ => some [[37, 80], [68, 70]]
  countObjects := fun _ => 2
  objectType := fun _ i => if i = 0 then FPDF_PAGEOBJ_TEXT else FPDF_PAGEOBJ_IMAGE
  objectBounds := fun _ _ => (0, 0, 10, 10)
  textPageOk := fun _ => true
  objText := fun _ _ => "hello"
  setTextOk := fun _ _ _ => true
  loadJpegInlineOk := fun _ _ _ => true
  createBitmapExOk := fun _ _ => true
  setBitmapOk := fun _ _ => true
  pageWidthPt := fun _ => 612
  pageHeightPt := fun _ => 792
  bitmapCreateOk := fun _ _ => true
  bitmapStride := fun w _ => w.toNat * 4
  renderPageBitmap := fun p _ _ i => (p + i) % 256

/-- Witness state: one open document (handle 1 → resource 10), a cache
holding two dirty pages for handle 1 — page 0 on resource 7 (whose
regeneration fails under `pdfW`) and page 2 on resource 9 — and one
dirty page for handle 5 on resource 12. -/
def stW : AddonState where
  documents := [(1, 10), (5, 11)]
  pageCache := [(1, [(0, ⟨7, true⟩), (2, ⟨9, true⟩)]), (5, [(1, ⟨12, true⟩)])]
  nextHandle := 6

/-- Witness state with a clean cache for handle 1: one dirty page on
resource 9 only, so every regeneration succeeds under `pdfW`. -/
def stOk : AddonState where
  documents := [(1, 10)]
  pageCache := [(1, [(2, ⟨9, true⟩)])]
  nextHandle := 2

/-- The state after closing handle 1 of `stOk`. -/
def stClosed : AddonState := (CloseDocument stOk 1).1

section MapLemmas

variable {α β : Type} [DecidableEq α]

theorem lookupA_insertA_self (l : List (α × β)) (a : α) (b : β) :
    lookupA (insertA l a b) a = some b := by
  induction l with
  | nil => simp [insertA, lookupA]
  | cons hd tl ih =>
    obtain ⟨k, v⟩ := hd
    by_cases h : a = k
    · simp [insertA, h, lookupA]
    · simp [insertA, h, lookupA, ih]

theorem lookupA_insertA_ne (l : List (α × β)) (a a' : α) (b : β)
    (h : a' ≠ a) : lookupA (insertA l a b) a' = lookupA l a' := by
  induction l with
  | nil => simp [insertA, lookupA, h]
  | cons hd tl ih =>
    obtain ⟨k, v⟩ := hd
    by_cases hk : a = k
    · subst hk
      simp [insertA, lookupA, h]
    · by_cases hk' : a' = k
      · simp [insertA, hk, lookupA, hk']
      · simp [insertA, hk, lookupA, hk', ih]

theorem lookupA_eraseA_self (l : List (α × β)) (a : α) :
    lookupA (eraseA l a) a = none := by
  induction l with
  | nil => simp [eraseA, lookupA]
  | cons hd tl ih =>
    obtain ⟨k, v⟩ := hd
    by_cases h : a = k
    · subst h
      simp [eraseA, ih]
    · simp [eraseA, h, lookupA, ih]

theorem lookupA_eraseA_ne (l : List (α × β)) (a a' : α)
    (h : a' ≠ a) : lookupA (eraseA l a) a' = lookupA l a' := by
  induction l with
  | nil => simp [eraseA, lookupA]
  | cons hd tl ih =>
    obtain ⟨k, v⟩ := hd
    by_cases hk : a = k
    · subst hk
      simp [eraseA, lookupA, h, ih]
    · by_cases hk' : a' = k
      · simp [eraseA, hk, lookupA, hk']
      · simp [eraseA, hk, lookupA, hk', ih]

theorem lookupA_mem (l : List (α × β)) (a : α) (b : β)
    (h : lookupA l a = some b) : (a, b) ∈ l := by
  induction l with
  | nil => simp [lookupA] at h
  | cons hd tl ih =>
    obtain ⟨k, v⟩ := hd
    by_cases hk : a = k
    · subst hk
      simp [lookupA] at h
      simp [h]
    · simp [lookupA, hk] at h
      exact List.mem_cons_of_mem _ (ih h)

theorem all_insertA (l : List (α × β)) (a : α) (b : β)
    (p : α × β → Bool) (hl : l.all p = true) (hb : p (a, b) = true) :
    (insertA l a b).all p = true := by
  induction l with
  | nil => simp [insertA, List.all_cons, hb]
  | cons hd tl ih =>
    obtain ⟨k, v⟩ := hd
    simp only [List.all_cons, Bool.and_eq_true] at hl
    by_cases hk : a = k
    · subst hk
      have he : insertA ((a, v) :: tl) a b = (a, b) :: tl := by
        simp [insertA]
      rw [he, List.all_cons, Bool.and_eq_true]
      exact ⟨hb, hl.2⟩
    · have he : insertA ((k, v) :: tl) a b = (k, v) :: insertA tl a b := by
        simp [insertA, hk]
      rw [he, List.all_cons, Bool.and_eq_true]
      exact ⟨hl.1, ih hl.2⟩

theorem all_eraseA (l : List (α × β)) (a : α)
    (p : α × β → Bool) (hl : l.all p = true) :
    (eraseA l a).all p = true := by
  induction l with
  | nil => simp [eraseA]
  | cons hd tl ih =>
    obtain ⟨k, v⟩ := hd
    simp only [List.all_cons, Bool.and_eq_true] at hl
    by_cases hk : a = k
    · simp only [eraseA, if_pos hk]
      exact ih hl.2
    · simp only [eraseA, if_neg hk, List.all_cons, Bool.and_eq_true]
      exact ⟨hl.1, ih hl.2⟩

end MapLemmas

section FlushLemmas

theorem gensOf_append (evs evs' : List LibEvent) :
    gensOf (evs ++ evs') = gensOf evs ++ gensOf evs' := by
  simp [gensOf]

theorem closesOf_append (evs evs' : List LibEvent) :
    closesOf (evs ++ evs') = closesOf evs ++ closesOf evs' := by
  simp [closesOf]

theorem gensOf_gen (p : PageRes) :
    gensOf [LibEvent.generateContent p] = [p] := rfl

theorem gensOf_close (p : PageRes) :
    gensOf [LibEvent.closePage p] = [] := rfl

theorem closesOf_gen (p : PageRes) :
    closesOf [LibEvent.generateContent p] = [] := rfl

theorem closesOf_close (p : PageRes) :
    closesOf [LibEvent.closePage p] = [p] := rfl

theorem flushLoop_cons (pdf : Pdfium) (i : PageIndex) (cp : CachedPage)
    (tl : DocCache) :
    flushLoop pdf ((i, cp) :: tl) =
      ((if cp.dirty then [LibEvent.generateContent cp.page] else []) ++
         [.closePage cp.page] ++ (flushLoop pdf tl).1,
       (if cp.dirty then pdf.generateContent cp.page else true) &&
         (flushLoop pdf tl).2) := rfl

theorem flushLoop_gens (pdf : Pdfium) (dc : DocCache) :
    gensOf (flushLoop pdf dc).1 =
      (dc.filter (fun e => e.2.dirty)).map (fun e => e.2.page) := by
  induction dc with
  | nil => simp [flushLoop, gensOf]
  | cons hd tl ih =>
    obtain ⟨i, cp⟩ := hd
    rw [flushLoop_cons]
    by_cases hdirty : cp.dirty
    · simp only [hdirty, if_true]
      rw [gensOf_append, gensOf_append, gensOf_gen, gensOf_close, ih]
      simp [List.filter_cons, hdirty]
    · have hd0 : cp.dirty = false := by simpa using hdirty
      simp only [hd0, Bool.false_eq_true, if_false, List.nil_append]
      rw [gensOf_append, gensOf_close, ih]
      simp [List.filter_cons, hd0]

theorem flushLoop_closes (pdf : Pdfium) (dc : DocCache) :
    closesOf (flushLoop pdf dc).1 = dc.map (fun e => e.2.page) := by
  induction dc with
  | nil => simp [flushLoop, closesOf]
  | cons hd tl ih =>
    obtain ⟨i, cp⟩ := hd
    rw [flushLoop_cons]
    by_cases hdirty : cp.dirty
    · simp only [hdirty, if_true]
      rw [closesOf_append, closesOf_append, closesOf_gen, closesOf_close, ih]
      simp
    · have hd0 : cp.dirty = false := by simpa using hdirty
      simp only [hd0, Bool.false_eq_true, if_false, List.nil_append]
      rw [closesOf_append, closesOf_close, ih]
      simp

theorem flushLoop_ok (pdf : Pdfium) (dc : DocCache) :
    (flushLoop pdf dc).2 = true ↔
      ∀ e ∈ dc, e.2.dirty = true → pdf.generateContent e.2.page = true := by
  induction dc with
  | nil => simp [flushLoop]
  | cons hd tl ih =>
    obtain ⟨i, cp⟩ := hd
    rw [flushLoop_cons]
    by_cases hdirty : cp.dirty
    · simp only [hdirty, if_true, Bool.and_eq_true, ih, List.mem_cons]
      constructor
      · rintro ⟨hg, hrest⟩ e (rfl | hmem)
        · intro _
          exact hg
        · exact hrest e hmem
      · intro h
        exact ⟨h (i, cp) (Or.inl rfl) hdirty,
               fun e hmem => h e (Or.inr hmem)⟩
    · have hd0 : cp.dirty = false := by simpa using hdirty
      simp only [hd0, Bool.false_eq_true, if_false, Bool.true_and, ih,
        List.mem_cons]
      constructor
      · rintro hrest e (rfl | hmem)
        · intro hcontra
          rw [hd0] at hcontra
          cases hcontra
        · exact hrest e hmem
      · intro h e hmem
        exact h e (Or.inr hmem)

theorem flush_pageCache_self (pdf : Pdfium) (st : AddonState) (handle : Handle) :
    lookupA (FlushAndCloseCachedPages pdf st handle).1.pageCache handle = none := by
  unfold FlushAndCloseCachedPages
  cases h : lookupA st.pageCache handle with
  | none => simpa
  | some dc => simp [lookupA_eraseA_self]

theorem flush_documents (pdf : Pdfium) (st : AddonState) (handle : Handle) :
    (FlushAndCloseCachedPages pdf st handle).1.documents = st.documents := by
  unfold FlushAndCloseCachedPages
  cases h : lookupA st.pageCache handle <;> simp

theorem flush_eq_none (pdf : Pdfium) (st : AddonState) (handle : Handle)
    (h : lookupA st.pageCache handle = none) :
    FlushAndCloseCachedPages pdf st handle = (st, [], true) := by
  unfold FlushAndCloseCachedPages
  rw [h]

theorem flush_eq_some (pdf : Pdfium) (st : AddonState) (handle : Handle)
    (dc : DocCache) (h : lookupA st.pageCache handle = some dc) :
    FlushAndCloseCachedPages pdf st handle =
      ({ st with pageCache := eraseA st.pageCache handle },
       (flushLoop pdf dc).1, (flushLoop pdf dc).2) := by
  unfold FlushAndCloseCachedPages
  rw [h]

theorem discard_eq_none (st : AddonState) (handle : Handle)
    (h : lookupA st.pageCache handle = none) :
    DiscardCachedPages st handle = (st, []) := by
  unfold DiscardCachedPages
  rw [h]

theorem discard_eq_some (st : AddonState) (handle : Handle)
    (dc : DocCache) (h : lookupA st.pageCache handle = some dc) :
    DiscardCachedPages st handle =
      ({ st with pageCache := eraseA st.pageCache handle },
       dc.map (fun e => .closePage e.2.page)) := by
  unfold DiscardCachedPages
  rw [h]

theorem requireDocument_eq_none (st : AddonState) (handle : Handle)
    (h : lookupA st.documents handle = none) :
    RequireDocument st handle = .error (invalidHandleError handle) := by
  unfold RequireDocument invalidHandleError
  rw [h]

theorem requireDocument_eq_some (st : AddonState) (handle : Handle)
    (doc : DocRes) (h : lookupA st.documents handle = some doc) :
    RequireDocument st handle = .ok doc := by
  unfold RequireDocument
  rw [h]

end FlushLemmas

/-- C1: for every document handle `h`, `flushAndClose(h)`
(addon.cc `FlushAndCloseCachedPages`) invokes content regeneration on
exactly the cached entries of `h` whose dirty flag is true, in entry
order and each entry at most once; closes the page
resource of every cached entry unconditionally; removes all entries for `h` from the cache
while leaving entries of other handles and the document registry
untouched; and returns true if and only if every regeneration it
attempted succeeded. -/
theorem C1_flushAndClose_contract (pdf : Pdfium) (st : AddonState)
    (handle : Handle) :
    gensOf (FlushAndCloseCachedPages pdf st handle).2.1 =
      (((lookupA st.pageCache handle).getD []).filter
        (fun e => e.2.dirty)).map (fun e => e.2.page) ∧
    closesOf (FlushAndCloseCachedPages pdf st handle).2.1 =
      ((lookupA st.pageCache handle).getD []).map (fun e => e.2.page) ∧
    lookupA (FlushAndCloseCachedPages pdf st handle).1.pageCache handle =
      none ∧
    (∀ h2, h2 ≠ handle →
      lookupA (FlushAndCloseCachedPages pdf st handle).1.pageCache h2 =
        lookupA st.pageCache h2) ∧
    (FlushAndCloseCachedPages pdf st handle).1.documents = st.documents ∧
    ((FlushAndCloseCachedPages pdf st handle).2.2 = true ↔
      ∀ e ∈ (lookupA st.pageCache handle).getD [],
        e.2.dirty = true → pdf.generateContent e.2.page = true) := by
  cases h : lookupA st.pageCache handle with
  | none =>
    rw [flush_eq_none pdf st handle h]
    exact ⟨by simp [gensOf], by simp [closesOf], by simpa using h,
      fun h2 _ => rfl, rfl, by simp⟩
  | some dc =>
    rw [flush_eq_some pdf st handle dc h]
    refine ⟨by simpa using flushLoop_gens pdf dc,
      by simpa using flushLoop_closes pdf dc,
      by simp [lookupA_eraseA_self],
      fun h2 hne => by simp [lookupA_eraseA_ne _ _ _ hne],
      rfl,
      by simpa using flushLoop_ok pdf dc⟩

theorem hasSaveEvent_append (e1 e2 : List LibEvent) :
    hasSaveEvent (e1 ++ e2) = (hasSaveEvent e1 || hasSaveEvent e2) := by
  simp [hasSaveEvent]

theorem hasSaveEvent_flushLoop (pdf : Pdfium) (dc : DocCache) :
    hasSaveEvent (flushLoop pdf dc).1 = false := by
  induction dc with
  | nil => rfl
  | cons hd tl ih =>
    obtain ⟨i, cp⟩ := hd
    rw [flushLoop_cons]
    by_cases hdirty : cp.dirty
    · simp only [hdirty, if_true, hasSaveEvent_append, ih]
      rfl
    · have hd0 : cp.dirty = false := by simpa using hdirty
      simp only [hd0, Bool.false_eq_true, if_false, List.nil_append,
        hasSaveEvent_append, ih]
      rfl

theorem hasSaveEvent_flush (pdf : Pdfium) (st : AddonState) (handle : Handle) :
    hasSaveEvent (FlushAndCloseCachedPages pdf st handle).2.1 = false := by
  cases h : lookupA st.pageCache handle with
  | none =>
    rw [flush_eq_none pdf st handle h]
    rfl
  | some dc =>
    rw [flush_eq_some pdf st handle dc h]
    exact hasSaveEvent_flushLoop pdf dc

theorem save_shape_fail_flush (pdf : Pdfium) (st : AddonState)
    (handle : Handle) (doc : DocRes)
    (hdoc : lookupA st.documents handle = some doc)
    (hfb : (FlushAndCloseCachedPages pdf st handle).2.2 = false) :
    SaveDocument pdf st handle =
      ((FlushAndCloseCachedPages pdf st handle).1,
       (FlushAndCloseCachedPages pdf st handle).2.1,
       .error (.error
         "saveDocument: FPDFPage_GenerateContent failed for a dirty page")) := by
  unfold SaveDocument
  rw [requireDocument_eq_some st handle doc hdoc]
  simp [hfb]

theorem save_shape_fail_copy (pdf : Pdfium) (st : AddonState)
    (handle : Handle) (doc : DocRes)
    (hdoc : lookupA st.documents handle = some doc)
    (hfb : (FlushAndCloseCachedPages pdf st handle).2.2 = true)
    (hsc : pdf.saveAsCopy doc = none) :
    SaveDocument pdf st handle =
      ((FlushAndCloseCachedPages pdf st handle).1,
       (FlushAndCloseCachedPages pdf st handle).2.1 ++ [.saveAsCopy doc],
       .error (.error "saveDocument: FPDF_SaveAsCopy failed")) := by
  unfold SaveDocument
  rw [requireDocument_eq_some st handle doc hdoc]
  simp [hfb, hsc]

theorem save_shape_ok (pdf : Pdfium) (st : AddonState)
    (handle : Handle) (doc : DocRes) (chunks : List (List Nat))
    (hdoc : lookupA st.documents handle = some doc)
    (hfb : (FlushAndCloseCachedPages pdf st handle).2.2 = true)
    (hsc : pdf.saveAsCopy doc = some chunks) :
    SaveDocument pdf st handle =
      ((FlushAndCloseCachedPages pdf st handle).1,
       (FlushAndCloseCachedPages pdf st handle).2.1 ++ [.saveAsCopy doc],
       .ok chunks.flatten) := by
  unfold SaveDocument
  rw [requireDocument_eq_some st handle doc hdoc]
  simp [hfb, hsc]

/-- C2: for every valid handle, `save` runs `flushAndClose` before the
serialization entry point of the library: when the flush reports failure,
`save` fails with the error naming `FPDFPage_GenerateContent` (content
regeneration) and its trace contains no `FPDF_SaveAsCopy` invocation at
all; when the flush succeeds, the trace is exactly the flush events
followed by the serialization call. -/
theorem C2_save_flushes_before_serialize (pdf : Pdfium) (st : AddonState)
    (handle : Handle) (doc : DocRes)
    (hdoc : lookupA st.documents handle = some doc) :
    ((FlushAndCloseCachedPages pdf st handle).2.2 = false →
      SaveDocument pdf st handle =
        ((FlushAndCloseCachedPages pdf st handle).1,
         (FlushAndCloseCachedPages pdf st handle).2.1,
         .error (.error
           "saveDocument: FPDFPage_GenerateContent failed for a dirty page")) ∧
      hasSaveEvent (SaveDocument pdf st handle).2.1 = false) ∧
    ((FlushAndCloseCachedPages pdf st handle).2.2 = true →
      (SaveDocument pdf st handle).2.1 =
        (FlushAndCloseCachedPages pdf st handle).2.1 ++
          [.saveAsCopy doc]) := by
  constructor
  · intro hfb
    have hs := save_shape_fail_flush pdf st handle doc hdoc hfb
    refine ⟨hs, ?_⟩
    rw [hs]
    exact hasSaveEvent_flush pdf st handle
  · intro hfb
    cases hsc : pdf.saveAsCopy doc with
    | none =>
      rw [save_shape_fail_copy pdf st handle doc hdoc hfb hsc]
    | some chunks =>
      rw [save_shape_ok pdf st handle doc chunks hdoc hfb hsc]

/-- C2 witness: under `pdfW` and `stW`, handle 1 has a dirty cached
page on resource 7 whose regeneration fails, so `save` aborts with the
regeneration error and never invokes serialization. -/
theorem C2_witness :
    (SaveDocument pdfW stW 1).2.2 =
      .error (.error
        "saveDocument: FPDFPage_GenerateContent failed for a dirty page") ∧
    hasSaveEvent (SaveDocument pdfW stW 1).2.1 = false := by
  have h := (C2_save_flushes_before_serialize pdfW stW 1 10 rfl).1 (by decide)
  exact ⟨by rw [h.1], h.2⟩

/-- C6: if `save(h)` on a valid handle succeeds, then afterwards the
cache holds no entries for `h`, the next `flushAndClose(h)` processes
zero entries and returns true, and a second `save(h)` succeeds with the
same bytes, its trace being just the serialization call. -/
theorem C6_save_twice (pdf : Pdfium) (st : AddonState) (handle : Handle)
    (doc : DocRes) (bytes : List Nat)
    (hdoc : lookupA st.documents handle = some doc)
    (h1 : (SaveDocument pdf st handle).2.2 = .ok bytes) :
    lookupA (SaveDocument pdf st handle).1.pageCache handle = none ∧
    FlushAndCloseCachedPages pdf (SaveDocument pdf st handle).1 handle =
      ((SaveDocument pdf st handle).1, [], true) ∧
    SaveDocument pdf (SaveDocument pdf st handle).1 handle =
      ((SaveDocument pdf st handle).1, [.saveAsCopy doc], .ok bytes) := by
  by_cases hfb : (FlushAndCloseCachedPages pdf st handle).2.2 = false
  · rw [save_shape_fail_flush pdf st handle doc hdoc hfb] at h1
    cases h1
  · have hfb' : (FlushAndCloseCachedPages pdf st handle).2.2 = true := by
      simpa using hfb
    cases hsc : pdf.saveAsCopy doc with
    | none =>
      rw [save_shape_fail_copy pdf st handle doc hdoc hfb' hsc] at h1
      cases h1
    | some chunks =>
      have hs := save_shape_ok pdf st handle doc chunks hdoc hfb' hsc
      rw [hs] at h1
      have hbytes : chunks.flatten = bytes := by
        simpa using h1
      have hst1 : (SaveDocument pdf st handle).1 =
          (FlushAndCloseCachedPages pdf st handle).1 := by
        rw [hs]
      have hcache : lookupA (SaveDocument pdf st handle).1.pageCache handle =
          none := by
        rw [hst1]
        exact flush_pageCache_self pdf st handle
      have hflush2 : FlushAndCloseCachedPages pdf
          (SaveDocument pdf st handle).1 handle =
          ((SaveDocument pdf st handle).1, [], true) :=
        flush_eq_none pdf _ handle hcache
      have hdoc2 : lookupA (SaveDocument pdf st handle).1.documents handle =
          some doc := by
        rw [hst1, flush_documents]
        exact hdoc
      have hs2 := save_shape_ok pdf (SaveDocument pdf st handle).1 handle doc
        chunks hdoc2 (by rw [hflush2]) hsc
      rw [hflush2] at hs2
      refine ⟨hcache, hflush2, ?_⟩
      rw [hs2, hbytes]
      simp

/-- C6 witness: under `pdfW` and `stOk`, the first save of handle 1
succeeds; the cache is then empty for handle 1, the second flush is a
no-op returning true, and the second save succeeds with the same
bytes. -/
theorem C6_witness :
    lookupA (SaveDocument pdfW stOk 1).1.pageCache 1 = none ∧
    FlushAndCloseCachedPages pdfW (SaveDocument pdfW stOk 1).1 1 =
      ((SaveDocument pdfW stOk 1).1, [], true) ∧
    SaveDocument pdfW (SaveDocument pdfW stOk 1).1 1 =
      ((SaveDocument pdfW stOk 1).1, [.saveAsCopy 10],
       .ok [37, 80, 68, 70]) :=
  C6_save_twice pdfW stOk 1 10 [37, 80, 68, 70] rfl rfl

/-- C6 counterexample: handle 1 of `stW` is valid under `pdfW`, yet
already its first save fails — the dirty cached page on resource 7 has
a failing regeneration — so "calling save(h) twice in succession
succeeds both times" does not hold of every valid handle; success of
the second save is contingent on the first succeeding. -/
theorem C6_counterexample :
    lookupA stW.documents 1 = some 10 ∧
    (SaveDocument pdfW stW 1).2.2 =
      .error (.error
        "saveDocument: FPDFPage_GenerateContent failed for a dirty page") :=
  ⟨rfl, rfl⟩

/-- C4: for every handle, page index and page resource, `acquire`
immediately after `markDirty(h, i, r)` (addon.cc `AcquirePage` after
`CachePageDirty`) is a cache hit returning exactly `(r, wasCached =
true)`, with no library load. -/
theorem C4_acquire_after_markDirty (pdf : Pdfium) (st : AddonState)
    (handle : Handle) (doc : DocRes) (pageIndex : PageIndex)
    (page : PageRes) :
    AcquirePage pdf (CachePageDirty st handle pageIndex page) handle doc
      pageIndex = (some page, true, []) := by
  unfold AcquirePage CachePageDirty
  simp [lookupA_insertA_self]

theorem renderPage_state (pdf : Pdfium) (st : AddonState) (handle : Handle)
    (pageIndex : PageIndex) (scale : ℚ) :
    (RenderPage pdf st handle pageIndex scale).1 = st := by
  unfold RenderPage
  dsimp only
  repeat' first
  | rfl
  | split

/-- C9: `renderPage` is deterministic and read-only: it never changes
the addon state, so rendering the same unedited page twice at the same
scale returns exactly the same result — in particular byte-identical
pixel buffers. -/
theorem C9_render_deterministic (pdf : Pdfium) (st : AddonState)
    (handle : Handle) (pageIndex : PageIndex) (scale : ℚ) :
    (RenderPage pdf st handle pageIndex scale).1 = st ∧
    RenderPage pdf (RenderPage pdf st handle pageIndex scale).1 handle
        pageIndex scale =
      RenderPage pdf st handle pageIndex scale := by
  refine ⟨renderPage_state pdf st handle pageIndex scale, ?_⟩
  rw [renderPage_state pdf st handle pageIndex scale]

theorem truncToInt_round (q : ℚ) (hq : 0 ≤ q) :
    truncToInt (q + 1/2) = round q := by
  rw [round_eq, truncToInt, if_pos]
  linarith

theorem round_nonneg_of_nonneg (q : ℚ) (hq : 0 ≤ q) : 0 ≤ round q := by
  rw [round_eq]
  exact Int.floor_nonneg.mpr (by linarith)

/-- C7: for a valid handle, in-range page index and positive scale
(page dimensions being nonnegative, as the library returns), the pixel
dimensions of a successful render are exactly
`round(pageDimensionInPoints * scale)` per axis, and whenever either
rounded dimension is zero the render fails with the zero-size error and
returns no pixel buffer. -/
theorem C7_render_dimensions (pdf : Pdfium) (st : AddonState)
    (handle : Handle) (doc : DocRes) (pageIndex : PageIndex) (scale : ℚ)
    (page : PageRes) (fromCache : Bool) (evs : List LibEvent)
    (hdoc : lookupA st.documents handle = some doc)
    (hrange : ¬(pageIndex < 0 ∨ pdf.getPageCount doc ≤ pageIndex))
    (hscale : 0 < scale)
    (hacq : AcquirePage pdf st handle doc pageIndex =
      (some page, fromCache, evs))
    (hw : 0 ≤ pdf.pageWidthPt page) (hh : 0 ≤ pdf.pageHeightPt page) :
    (∀ r, (RenderPage pdf st handle pageIndex scale).2.2 = .ok r →
       r.width = round (pdf.pageWidthPt page * scale) ∧
       r.height = round (pdf.pageHeightPt page * scale)) ∧
    (round (pdf.pageWidthPt page * scale) = 0 ∨
       round (pdf.pageHeightPt page * scale) = 0 →
      (RenderPage pdf st handle pageIndex scale).2.2 =
        .error (.error "renderPage: resulting bitmap size is zero")) := by
  have hscale2 : ¬ scale ≤ 0 := not_le.mpr hscale
  have hW := truncToInt_round (pdf.pageWidthPt page * scale)
    (mul_nonneg hw hscale.le)
  have hH := truncToInt_round (pdf.pageHeightPt page * scale)
    (mul_nonneg hh hscale.le)
  have hWnn := round_nonneg_of_nonneg (pdf.pageWidthPt page * scale)
    (mul_nonneg hw hscale.le)
  have hHnn := round_nonneg_of_nonneg (pdf.pageHeightPt page * scale)
    (mul_nonneg hh hscale.le)
  unfold RenderPage
  rw [requireDocument_eq_some st handle doc hdoc]
  simp only [if_neg hrange, if_neg hscale2, hacq, hW, hH]
  constructor
  · intro r hr
    by_cases hz : round (pdf.pageWidthPt page * scale) ≤ 0 ∨
        round (pdf.pageHeightPt page * scale) ≤ 0
    · rw [if_pos hz] at hr
      cases hr
    · rw [if_neg hz] at hr
      by_cases hbc : pdf.bitmapCreateOk
          (round (pdf.pageWidthPt page * scale))
          (round (pdf.pageHeightPt page * scale)) = false
      · rw [if_pos hbc] at hr
        cases hr
      · rw [if_neg hbc] at hr
        cases hr
        exact ⟨rfl, rfl⟩
  · intro hz
    have hz' : round (pdf.pageWidthPt page * scale) ≤ 0 ∨
        round (pdf.pageHeightPt page * scale) ≤ 0 := by
      rcases hz with h | h
      · exact Or.inl h.le
      · exact Or.inr h.le
    rw [if_pos hz']

/-- Oracle for the C7 witness: as `pdfW` but with a page an eighth of a
point wide, so that rendering at scale 1 rounds the width to zero. -/
def pdfT : Pdfium :=
  { pdfW with pageWidthPt := fun _ => 1/8, pageHeightPt := fun _ => 2 }

/-- C7 witness: under `pdfT` the rounded width at scale 1 is zero, so
rendering page 0 of handle 1 cannot return a pixel buffer. -/
theorem C7_witness :
    (RenderPage pdfT stOk 1 0 1).2.2 ≠
      .ok { data := [], width := 0, height := 0 } := by
  have h := C7_render_dimensions pdfT stOk 1 10 0 1 110 false
    [.loadPage 10 0] rfl (by decide) (by norm_num) rfl
    (by simp only [pdfT]; norm_num)
    (by simp only [pdfT]; norm_num)
  rw [h.2 (Or.inl (by
    simp only [pdfT, mul_one, round_eq]
    rw [show (1:ℚ)/8 + 1/2 = 5/8 by ring]
    rw [Int.floor_eq_zero_iff]
    constructor <;> norm_num))]
  intro hcontra
  cases hcontra

theorem editText_shape (pdf : Pdfium) (st : AddonState) (handle : Handle)
    (doc : DocRes) (pageIndex : PageIndex) (oid : Int) (txt : String)
    (page : PageRes) (fromCache : Bool) (evs : List LibEvent)
    (hdoc : lookupA st.documents handle = some doc)
    (hacq : AcquirePage pdf st handle doc pageIndex =
      (some page, fromCache, evs)) :
    EditTextObject pdf st handle pageIndex oid txt =
      if oid < 0 ∨ pdf.countObjects page ≤ oid then
        (st, evs ++ ReleasePage handle pageIndex page fromCache,
         .error (.rangeError
           ("editTextObject: objectId " ++ toString oid ++
            " out of range [0, " ++
            toString (pdf.countObjects page - 1) ++ "]")))
      else if pdf.objectType page oid ≠ FPDF_PAGEOBJ_TEXT then
        (st, evs ++ ReleasePage handle pageIndex page fromCache,
         .error (.typeError
           ("editTextObject: object " ++ toString oid ++
            " is not a text object")))
      else if pdf.setTextOk page oid txt = false then
        (st, evs ++ [.setText page oid] ++
           ReleasePage handle pageIndex page fromCache,
         .error (.error "editTextObject: FPDFText_SetText failed"))
      else
        (CachePageDirty st handle pageIndex page,
         evs ++ [.setText page oid], .ok ()) := by
  unfold EditTextObject
  rw [requireDocument_eq_some st handle doc hdoc]
  dsimp only
  rw [hacq]

theorem replaceImage_shape (pdf : Pdfium) (st : AddonState) (handle : Handle)
    (doc : DocRes) (pageIndex : PageIndex) (oid : Int) (img : List Nat)
    (fmt : String) (page : PageRes) (fromCache : Bool) (evs : List LibEvent)
    (hdoc : lookupA st.documents handle = some doc)
    (hacq : AcquirePage pdf st handle doc pageIndex =
      (some page, fromCache, evs)) :
    ReplaceImageObject pdf st handle pageIndex oid img fmt =
      if oid < 0 ∨ pdf.countObjects page ≤ oid then
        (st, evs ++ ReleasePage handle pageIndex page fromCache,
         .error (.rangeError
           ("replaceImageObject: objectId " ++ toString oid ++
            " out of range [0, " ++
            toString (pdf.countObjects page - 1) ++ "]")))
      else if pdf.objectType page oid ≠ FPDF_PAGEOBJ_IMAGE then
        (st, evs ++ ReleasePage handle pageIndex page fromCache,
         .error (.typeError
           ("replaceImageObject: object " ++ toString oid ++
            " is not an image object")))
      else if fmt = "jpeg" then
        if pdf.loadJpegInlineOk page oid img then
          (CachePageDirty st handle pageIndex page,
           evs ++ [.loadJpegInline page oid], .ok ())
        else
          (st, evs ++ [.loadJpegInline page oid] ++
             ReleasePage handle pageIndex page fromCache,
           .error (.error
             "replaceImageObject: failed to load replacement image"))
      else
        (st, evs ++ ReleasePage handle pageIndex page fromCache,
         .error (.error
           ("replaceImageObject: only \x27jpeg\x27 format is currently " ++
            "supported. Convert other formats to JPEG before calling " ++
            "this function."))) := by
  unfold ReplaceImageObject
  rw [requireDocument_eq_some st handle doc hdoc]
  dsimp only
  rw [hacq]

theorem replaceBitmap_undersized (pdf : Pdfium) (st : AddonState)
    (handle : Handle) (pageIndex : PageIndex) (oid : Int) (bgra : List Nat)
    (w h : Int) (hsize : (bgra.length : Int) < w * h * 4) :
    ReplaceImageObjectBitmap pdf st handle pageIndex oid bgra w h =
      (st, [],
       .error (.rangeError
         ("replaceImageObjectBitmap: bgraData buffer too small. Expected " ++
          toString (w * h * 4) ++ " bytes for " ++ toString w ++ "x" ++
          toString h ++ " BGRA"))) := by
  unfold ReplaceImageObjectBitmap
  rw [if_pos hsize]

theorem replaceBitmap_shape (pdf : Pdfium) (st : AddonState)
    (handle : Handle) (doc : DocRes) (pageIndex : PageIndex) (oid : Int)
    (bgra : List Nat) (w h : Int) (page : PageRes) (fromCache : Bool)
    (evs : List LibEvent)
    (hsize : ¬((bgra.length : Int) < w * h * 4))
    (hdoc : lookupA st.documents handle = some doc)
    (hacq : AcquirePage pdf st handle doc pageIndex =
      (some page, fromCache, evs)) :
    ReplaceImageObjectBitmap pdf st handle pageIndex oid bgra w h =
      if oid < 0 ∨ pdf.countObjects page ≤ oid then
        (st, evs ++ ReleasePage handle pageIndex page fromCache,
         .error (.rangeError
           ("replaceImageObjectBitmap: objectId " ++ toString oid ++
            " out of range [0, " ++
            toString (pdf.countObjects page - 1) ++ "]")))
      else if pdf.objectType page oid ≠ FPDF_PAGEOBJ_IMAGE then
        (st, evs ++ ReleasePage handle pageIndex page fromCache,
         .error (.typeError
           ("replaceImageObjectBitmap: object " ++ toString oid ++
            " is not an image object")))
      else if pdf.createBitmapExOk w h = false then
        (st, evs ++ ReleasePage handle pageIndex page fromCache,
         .error (.error
           "replaceImageObjectBitmap: FPDFBitmap_CreateEx failed"))
      else if pdf.setBitmapOk page oid = false then
        (st, evs ++ [.setBitmap page oid] ++
           ReleasePage handle pageIndex page fromCache,
         .error (.error
           "replaceImageObjectBitmap: FPDFImageObj_SetBitmap failed"))
      else
        (CachePageDirty st handle pageIndex page,
         evs ++ [.setBitmap page oid], .ok ()) := by
  unfold ReplaceImageObjectBitmap
  rw [if_neg hsize, requireDocument_eq_some st handle doc hdoc]
  dsimp only
  rw [hacq]

/-- C8: `replaceImageObject` on a valid handle, in-range image object
id, with any format string other than `jpeg`, fails with the
unsupported-format error (the `StateError` category of the spec), performs
no mutation, and leaves the state — in particular the cache entry of the target page — completely unchanged: the page is merely released under
the normal cache contract. -/
theorem C8_replaceImage_unsupported_format (pdf : Pdfium) (st : AddonState)
    (handle : Handle) (doc : DocRes) (pageIndex : PageIndex) (oid : Int)
    (img : List Nat) (fmt : String) (page : PageRes) (fromCache : Bool)
    (evs : List LibEvent)
    (hdoc : lookupA st.documents handle = some doc)
    (hacq : AcquirePage pdf st handle doc pageIndex =
      (some page, fromCache, evs))
    (hrange : ¬(oid < 0 ∨ pdf.countObjects page ≤ oid))
    (htype : pdf.objectType page oid = FPDF_PAGEOBJ_IMAGE)
    (hfmt : fmt ≠ "jpeg") :
    ReplaceImageObject pdf st handle pageIndex oid img fmt =
      (st, evs ++ ReleasePage handle pageIndex page fromCache,
       .error (.error
         ("replaceImageObject: only \x27jpeg\x27 format is currently " ++
          "supported. Convert other formats to JPEG before calling " ++
          "this function."))) ∧
    (ReplaceImageObject pdf st handle pageIndex oid img fmt).1.pageCache =
      st.pageCache := by
  have hs := replaceImage_shape pdf st handle doc pageIndex oid img fmt
    page fromCache evs hdoc hacq
  rw [if_neg hrange, if_neg (fun hcon => hcon htype), if_neg hfmt] at hs
  exact ⟨hs, by rw [hs]⟩

/-- C8 witness: replacing image object 1 of page 0 of handle 1 with a
`png`-format buffer under `pdfW`/`stOk` fails with the
unsupported-format error and leaves the state unchanged. -/
theorem C8_witness :
    ReplaceImageObject pdfW stOk 1 0 1 [1, 2] "png" =
      (stOk, [.loadPage 10 0, .closePage 110],
       .error (.error
         ("replaceImageObject: only \x27jpeg\x27 format is currently " ++
          "supported. Convert other formats to JPEG before calling " ++
          "this function."))) := by
  have h := C8_replaceImage_unsupported_format pdfW stOk 1 10 0 1 [1, 2]
    "png" 110 false [.loadPage 10 0] rfl rfl (by decide) rfl (by decide)
  rw [h.1]
  rfl

theorem hasMutationEvent_append (e1 e2 : List LibEvent) :
    hasMutationEvent (e1 ++ e2) =
      (hasMutationEvent e1 || hasMutationEvent e2) := by
  simp [hasMutationEvent]

theorem hasMutationEvent_release (handle : Handle) (pageIndex : PageIndex)
    (page : PageRes) (fc : Bool) :
    hasMutationEvent (ReleasePage handle pageIndex page fc) = false := by
  cases fc <;> rfl

theorem acquire_evs (pdf : Pdfium) (st : AddonState) (handle : Handle)
    (doc : DocRes) (pageIndex : PageIndex) :
    (AcquirePage pdf st handle doc pageIndex).2.2 = [] ∨
    (AcquirePage pdf st handle doc pageIndex).2.2 =
      [.loadPage doc pageIndex] := by
  unfold AcquirePage
  cases h1 : lookupA st.pageCache handle with
  | none => right; rfl
  | some dc =>
    dsimp only
    cases h2 : lookupA dc pageIndex with
    | none => right; rfl
    | some cp => left; rfl

/-- C5: each edit operation (`editTextObject`, `replaceImageObject`,
`replaceImageObjectBitmap`) on a valid handle with an acquired page:
whenever it fails after acquiring the page — out-of-range object id,
wrong object type, unsupported format, or library mutation failure —
it leaves the addon state (in particular the page cache) unchanged,
the error is propagated, and the page is released under the normal
release contract, so a transiently loaded page (`fromCache = false`)
has a `FPDF_ClosePage` call in the trace; in particular an
out-of-range object id fails with the `RangeError` stating the bounds
`[0, count-1]` and performs no object mutation at all. -/
theorem C5_edit_failure_frame (pdf : Pdfium) (st : AddonState)
    (handle : Handle) (doc : DocRes) (pageIndex : PageIndex) (oid : Int)
    (txt : String) (img : List Nat) (fmt : String) (bgra : List Nat)
    (w h : Int) (page : PageRes) (fromCache : Bool) (evs : List LibEvent)
    (hdoc : lookupA st.documents handle = some doc)
    (hacq : AcquirePage pdf st handle doc pageIndex =
      (some page, fromCache, evs)) :
    (∀ e, (EditTextObject pdf st handle pageIndex oid txt).2.2 =
        .error e →
      (EditTextObject pdf st handle pageIndex oid txt).1 = st ∧
      (fromCache = false →
        .closePage page ∈
          (EditTextObject pdf st handle pageIndex oid txt).2.1)) ∧
    (∀ e, (ReplaceImageObject pdf st handle pageIndex oid img fmt).2.2 =
        .error e →
      (ReplaceImageObject pdf st handle pageIndex oid img fmt).1 = st ∧
      (fromCache = false →
        .closePage page ∈
          (ReplaceImageObject pdf st handle pageIndex oid img fmt).2.1)) ∧
    (∀ e, (ReplaceImageObjectBitmap pdf st handle pageIndex oid bgra
        w h).2.2 = .error e →
      (ReplaceImageObjectBitmap pdf st handle pageIndex oid bgra w h).1 =
        st ∧
      (fromCache = false → ¬((bgra.length : Int) < w * h * 4) →
        .closePage page ∈
          (ReplaceImageObjectBitmap pdf st handle pageIndex oid bgra
            w h).2.1)) ∧
    ((oid < 0 ∨ pdf.countObjects page ≤ oid) →
      EditTextObject pdf st handle pageIndex oid txt =
        (st, evs ++ ReleasePage handle pageIndex page fromCache,
         .error (.rangeError
           ("editTextObject: objectId " ++ toString oid ++
            " out of range [0, " ++
            toString (pdf.countObjects page - 1) ++ "]"))) ∧
      hasMutationEvent
        (EditTextObject pdf st handle pageIndex oid txt).2.1 = false) := by
  have hevs : evs = [] ∨ evs = [.loadPage doc pageIndex] := by
    have ha := acquire_evs pdf st handle doc pageIndex
    rw [hacq] at ha
    exact ha
  have hmute : hasMutationEvent evs = false := by
    rcases hevs with rfl | rfl <;> rfl
  have memC : ∀ e2 : List LibEvent, fromCache = false →
      LibEvent.closePage page ∈
        e2 ++ ReleasePage handle pageIndex page fromCache := by
    intro e2 hf
    subst hf
    simp [ReleasePage]
  have memC2 : ∀ e2 e3 : List LibEvent, fromCache = false →
      LibEvent.closePage page ∈
        e2 ++ e3 ++ ReleasePage handle pageIndex page fromCache := by
    intro e2 e3 hf
    subst hf
    simp [ReleasePage]
  have hse := editText_shape pdf st handle doc pageIndex oid txt page
    fromCache evs hdoc hacq
  have hsr := replaceImage_shape pdf st handle doc pageIndex oid img fmt
    page fromCache evs hdoc hacq
  refine ⟨?_, ?_, ?_, ?_⟩
  · intro e herr
    rw [hse]
    by_cases h1 : oid < 0 ∨ pdf.countObjects page ≤ oid
    · rw [if_pos h1]
      exact ⟨rfl, fun hf => memC evs hf⟩
    · rw [if_neg h1]
      by_cases h2 : pdf.objectType page oid ≠ FPDF_PAGEOBJ_TEXT
      · rw [if_pos h2]
        exact ⟨rfl, fun hf => memC evs hf⟩
      · rw [if_neg h2]
        by_cases h3 : pdf.setTextOk page oid txt = false
        · rw [if_pos h3]
          exact ⟨rfl, fun hf => memC2 evs [.setText page oid] hf⟩
        · rw [hse, if_neg h1, if_neg h2, if_neg h3] at herr
          simp at herr
  · intro e herr
    rw [hsr]
    by_cases h1 : oid < 0 ∨ pdf.countObjects page ≤ oid
    · rw [if_pos h1]
      exact ⟨rfl, fun hf => memC evs hf⟩
    · rw [if_neg h1]
      by_cases h2 : pdf.objectType page oid ≠ FPDF_PAGEOBJ_IMAGE
      · rw [if_pos h2]
        exact ⟨rfl, fun hf => memC evs hf⟩
      · rw [if_neg h2]
        by_cases h3 : fmt = "jpeg"
        · rw [if_pos h3]
          by_cases h4 : pdf.loadJpegInlineOk page oid img
          · rw [hsr, if_neg h1, if_neg h2, if_pos h3, if_pos h4] at herr
            simp at herr
          · rw [if_neg h4]
            exact ⟨rfl, fun hf => memC2 evs [.loadJpegInline page oid] hf⟩
        · rw [if_neg h3]
          exact ⟨rfl, fun hf => memC evs hf⟩
  · intro e herr
    by_cases h0 : (bgra.length : Int) < w * h * 4
    · rw [replaceBitmap_undersized pdf st handle pageIndex oid bgra w h h0]
      exact ⟨rfl, fun _ hcon => absurd h0 hcon⟩
    · have hsb := replaceBitmap_shape pdf st handle doc pageIndex oid bgra
        w h page fromCache evs h0 hdoc hacq
      rw [hsb]
      by_cases h1 : oid < 0 ∨ pdf.countObjects page ≤ oid
      · rw [if_pos h1]
        exact ⟨rfl, fun hf _ => memC evs hf⟩
      · rw [if_neg h1]
        by_cases h2 : pdf.objectType page oid ≠ FPDF_PAGEOBJ_IMAGE
        · rw [if_pos h2]
          exact ⟨rfl, fun hf _ => memC evs hf⟩
        · rw [if_neg h2]
          by_cases h3 : pdf.createBitmapExOk w h = false
          · rw [if_pos h3]
            exact ⟨rfl, fun hf _ => memC evs hf⟩
          · rw [if_neg h3]
            by_cases h4 : pdf.setBitmapOk page oid = false
            · rw [if_pos h4]
              exact ⟨rfl, fun hf _ => memC2 evs [.setBitmap page oid] hf⟩
            · rw [hsb, if_neg h1, if_neg h2, if_neg h3, if_neg h4] at herr
              simp at herr
  · intro h1
    rw [hse, if_pos h1]
    refine ⟨rfl, ?_⟩
    dsimp only
    rw [hasMutationEvent_append, hmute, hasMutationEvent_release]
    rfl

/-- C5 witness: editing object 5 of page 0 of handle 1 under
`pdfW`/`stOk` (which has 2 objects) fails with the bounds-stating
`RangeError`, leaves the state unchanged, closes the transiently
loaded page, and performs no mutation. -/
theorem C5_witness :
    (EditTextObject pdfW stOk 1 0 5 "x").1 = stOk ∧
    LibEvent.closePage 110 ∈ (EditTextObject pdfW stOk 1 0 5 "x").2.1 ∧
    EditTextObject pdfW stOk 1 0 5 "x" =
      (stOk, [.loadPage 10 0, .closePage 110],
       .error (.rangeError
         "editTextObject: objectId 5 out of range [0, 1]")) ∧
    hasMutationEvent (EditTextObject pdfW stOk 1 0 5 "x").2.1 = false := by
  have h := C5_edit_failure_frame pdfW stOk 1 10 0 5 "x" [] "png" [] 1 1
    110 false [.loadPage 10 0] rfl rfl
  have h4 := h.2.2.2 (by decide)
  refine ⟨?_, ?_, ?_, h4.2⟩
  · rw [h4.1]
  · rw [h4.1]
    simp [ReleasePage]
  · rw [h4.1]
    rfl

theorem getPageCount_notFound (pdf : Pdfium) (st : AddonState)
    (handle : Handle) (h : lookupA st.documents handle = none) :
    GetPageCount pdf st handle = .error (invalidHandleError handle) := by
  unfold GetPageCount
  rw [requireDocument_eq_none st handle h]

theorem save_notFound (pdf : Pdfium) (st : AddonState) (handle : Handle)
    (h : lookupA st.documents handle = none) :
    SaveDocument pdf st handle =
      (st, [], .error (invalidHandleError handle)) := by
  unfold SaveDocument
  rw [requireDocument_eq_none st handle h]

theorem render_notFound (pdf : Pdfium) (st : AddonState) (handle : Handle)
    (pageIndex : PageIndex) (scale : ℚ)
    (h : lookupA st.documents handle = none) :
    RenderPage pdf st handle pageIndex scale =
      (st, [], .error (invalidHandleError handle)) := by
  unfold RenderPage
  rw [requireDocument_eq_none st handle h]

theorem list_notFound (pdf : Pdfium) (st : AddonState) (handle : Handle)
    (pageIndex : PageIndex) (h : lookupA st.documents handle = none) :
    ListPageObjects pdf st handle pageIndex =
      (st, [], .error (invalidHandleError handle)) := by
  unfold ListPageObjects
  rw [requireDocument_eq_none st handle h]

theorem editText_notFound (pdf : Pdfium) (st : AddonState) (handle : Handle)
    (pageIndex : PageIndex) (oid : Int) (txt : String)
    (h : lookupA st.documents handle = none) :
    EditTextObject pdf st handle pageIndex oid txt =
      (st, [], .error (invalidHandleError handle)) := by
  unfold EditTextObject
  rw [requireDocument_eq_none st handle h]

theorem replaceImage_notFound (pdf : Pdfium) (st : AddonState)
    (handle : Handle) (pageIndex : PageIndex) (oid : Int) (img : List Nat)
    (fmt : String) (h : lookupA st.documents handle = none) :
    ReplaceImageObject pdf st handle pageIndex oid img fmt =
      (st, [], .error (invalidHandleError handle)) := by
  unfold ReplaceImageObject
  rw [requireDocument_eq_none st handle h]

theorem replaceBitmap_notFound (pdf : Pdfium) (st : AddonState)
    (handle : Handle) (pageIndex : PageIndex) (oid : Int) (bgra : List Nat)
    (w h2 : Int) (hsize : ¬((bgra.length : Int) < w * h2 * 4))
    (h : lookupA st.documents handle = none) :
    ReplaceImageObjectBitmap pdf st handle pageIndex oid bgra w h2 =
      (st, [], .error (invalidHandleError handle)) := by
  unfold ReplaceImageObjectBitmap
  rw [if_neg hsize, requireDocument_eq_none st handle h]

theorem close_notFound (st : AddonState) (handle : Handle)
    (h : lookupA st.documents handle = none) :
    CloseDocument st handle =
      (st, [],
       .error (.error ("closeDocument: invalid handle " ++
         toString handle))) := by
  unfold CloseDocument
  rw [h]

theorem close_shape (st : AddonState) (handle : Handle) (doc : DocRes)
    (hdoc : lookupA st.documents handle = some doc) :
    CloseDocument st handle =
      ({ (DiscardCachedPages st handle).1 with
          documents :=
            eraseA (DiscardCachedPages st handle).1.documents handle },
       (DiscardCachedPages st handle).2 ++ [.closeDocument doc],
       .ok ()) := by
  unfold CloseDocument
  rw [hdoc]

theorem discard_documents (st : AddonState) (handle : Handle) :
    (DiscardCachedPages st handle).1.documents = st.documents := by
  cases h : lookupA st.pageCache handle with
  | none => rw [discard_eq_none st handle h]
  | some dc => rw [discard_eq_some st handle dc h]

theorem discard_pageCache_self (st : AddonState) (handle : Handle) :
    lookupA (DiscardCachedPages st handle).1.pageCache handle = none := by
  cases h : lookupA st.pageCache handle with
  | none =>
    rw [discard_eq_none st handle h]
    exact h
  | some dc =>
    rw [discard_eq_some st handle dc h]
    exact lookupA_eraseA_self st.pageCache handle

theorem discard_events (st : AddonState) (handle : Handle) :
    (DiscardCachedPages st handle).2 =
      ((lookupA st.pageCache handle).getD []).map
        (fun e => LibEvent.closePage e.2.page) := by
  cases h : lookupA st.pageCache handle with
  | none => rw [discard_eq_none st handle h]; rfl
  | some dc => rw [discard_eq_some st handle dc h]; rfl

theorem gensOf_map_close (l : List (PageIndex × CachedPage)) :
    gensOf (l.map (fun e => LibEvent.closePage e.2.page)) = [] := by
  induction l with
  | nil => rfl
  | cons hd tl ih => simp [gensOf]

theorem closesOf_map_close (l : List (PageIndex × CachedPage)) :
    closesOf (l.map (fun e => LibEvent.closePage e.2.page)) =
      l.map (fun e => e.2.page) := by
  induction l with
  | nil => rfl
  | cons hd tl ih => simpa [closesOf] using ih

/-- C3 counterexample: with `stClosed` — handle 1 already closed —
`replaceImageObjectBitmap(1, 0, 0, [], 1, 1)` validates its pixel
buffer size before the handle lookup and therefore fails with
`RangeError` (buffer too small), not with the `NotFoundError` the
claim demands of every operation on a closed handle. -/
theorem C3_counterexample :
    lookupA stClosed.documents 1 = none ∧
    (ReplaceImageObjectBitmap pdfW stClosed 1 0 0 [] 1 1).2.2 =
      .error (.rangeError
        ("replaceImageObjectBitmap: bgraData buffer too small. " ++
         "Expected 4 bytes for 1x1 BGRA")) ∧
    (ReplaceImageObjectBitmap pdfW stClosed 1 0 0 [] 1 1).2.2 ≠
      .error (invalidHandleError 1) := by
  refine ⟨rfl, rfl, ?_⟩
  intro hcon
  have h1 : (ReplaceImageObjectBitmap pdfW stClosed 1 0 0 [] 1 1).2.2 =
      Except.error (JsError.rangeError
        ("replaceImageObjectBitmap: bgraData buffer too small. " ++
         "Expected 4 bytes for 1x1 BGRA")) := rfl
  rw [h1] at hcon
  exact JsError.noConfusion (Except.error.inj hcon)

/-- C3 amended: closing a valid handle discards its cached pages with
no regeneration, removes the handle from the registry, and afterwards
`getPageCount`, `save`, `render`, `list`, `editTextObject` and
`replaceImageObject` on that handle fail with the invalid-handle error
(the `NotFoundError` of the spec); `replaceImageObjectBitmap` does too
provided its buffer passes the size validation that the source places
before the handle lookup; a second `close`, and `close` of any unknown
handle, fail with the invalid-handle close error. -/
theorem C3_close_then_notFound (pdf : Pdfium) (st : AddonState)
    (handle : Handle) (doc : DocRes)
    (hdoc : lookupA st.documents handle = some doc) :
    (CloseDocument st handle).2.2 = .ok () ∧
    gensOf (CloseDocument st handle).2.1 = [] ∧
    closesOf (CloseDocument st handle).2.1 =
      ((lookupA st.pageCache handle).getD []).map (fun e => e.2.page) ∧
    lookupA (CloseDocument st handle).1.pageCache handle = none ∧
    lookupA (CloseDocument st handle).1.documents handle = none ∧
    GetPageCount pdf (CloseDocument st handle).1 handle =
      .error (invalidHandleError handle) ∧
    SaveDocument pdf (CloseDocument st handle).1 handle =
      ((CloseDocument st handle).1, [],
       .error (invalidHandleError handle)) ∧
    (∀ i s, RenderPage pdf (CloseDocument st handle).1 handle i s =
      ((CloseDocument st handle).1, [],
       .error (invalidHandleError handle))) ∧
    (∀ i, ListPageObjects pdf (CloseDocument st handle).1 handle i =
      ((CloseDocument st handle).1, [],
       .error (invalidHandleError handle))) ∧
    (∀ i oid t, EditTextObject pdf (CloseDocument st handle).1 handle
        i oid t =
      ((CloseDocument st handle).1, [],
       .error (invalidHandleError handle))) ∧
    (∀ i oid im f, ReplaceImageObject pdf (CloseDocument st handle).1
        handle i oid im f =
      ((CloseDocument st handle).1, [],
       .error (invalidHandleError handle))) ∧
    (∀ i oid bg w h2, ¬((List.length bg : Int) < w * h2 * 4) →
      ReplaceImageObjectBitmap pdf (CloseDocument st handle).1 handle
        i oid bg w h2 =
      ((CloseDocument st handle).1, [],
       .error (invalidHandleError handle))) ∧
    (CloseDocument (CloseDocument st handle).1 handle).2.2 =
      .error (.error ("closeDocument: invalid handle " ++
        toString handle)) ∧
    (∀ st3 : AddonState, lookupA st3.documents handle = none →
      CloseDocument st3 handle =
        (st3, [],
         .error (.error ("closeDocument: invalid handle " ++
           toString handle)))) := by
  have hcs := close_shape st handle doc hdoc
  have hdocs2 : lookupA (CloseDocument st handle).1.documents handle =
      none := by
    rw [hcs]
    exact lookupA_eraseA_self _ handle
  refine ⟨by rw [hcs], ?_, ?_, ?_, hdocs2,
    getPageCount_notFound pdf _ handle hdocs2,
    save_notFound pdf _ handle hdocs2,
    fun i s => render_notFound pdf _ handle i s hdocs2,
    fun i => list_notFound pdf _ handle i hdocs2,
    fun i oid t => editText_notFound pdf _ handle i oid t hdocs2,
    fun i oid im f => replaceImage_notFound pdf _ handle i oid im f hdocs2,
    fun i oid bg w h2 hsz =>
      replaceBitmap_notFound pdf _ handle i oid bg w h2 hsz hdocs2,
    by rw [close_notFound _ handle hdocs2],
    fun st3 h3 => close_notFound st3 handle h3⟩
  · rw [hcs]
    dsimp only
    rw [gensOf_append, discard_events]
    rw [gensOf_map_close]
    rfl
  · rw [hcs]
    dsimp only
    rw [closesOf_append, discard_events, closesOf_map_close]
    simp [closesOf]
  · rw [hcs]
    dsimp only
    exact discard_pageCache_self st handle

/-- C3 witness: closing handle 1 of `stOk` succeeds with no
regeneration; the handle is gone from the registry and `getPageCount`
and a second `close` then fail with the invalid-handle errors. -/
theorem C3_witness :
    (CloseDocument stOk 1).2.2 = .ok () ∧
    gensOf (CloseDocument stOk 1).2.1 = [] ∧
    lookupA (CloseDocument stOk 1).1.documents 1 = none ∧
    GetPageCount pdfW (CloseDocument stOk 1).1 1 =
      .error (invalidHandleError 1) ∧
    (CloseDocument (CloseDocument stOk 1).1 1).2.2 =
      .error (.error "closeDocument: invalid handle 1") := by
  obtain ⟨h1, h2, -, -, h5, h6, -, -, -, -, -, -, h13, -⟩ :=
    C3_close_then_notFound pdfW stOk 1 10 rfl
  exact ⟨h1, h2, h5, h6, h13⟩

theorem allDirty_lookup (c : Cache) (h : Handle) (dc : DocCache)
    (hall : allDirty c = true) (hl : lookupA c h = some dc) :
    dc.all (fun pe => pe.2.dirty) = true := by
  have hmem := lookupA_mem c h dc hl
  unfold allDirty at hall
  rw [List.all_eq_true] at hall
  exact hall (h, dc) hmem

theorem allDirty_CachePageDirty (st : AddonState) (handle : Handle)
    (pageIndex : PageIndex) (page : PageRes)
    (hall : allDirty st.pageCache = true) :
    allDirty (CachePageDirty st handle pageIndex page).pageCache = true := by
  unfold CachePageDirty allDirty
  dsimp only
  apply all_insertA _ _ _ _ hall
  apply all_insertA
  · cases hl : lookupA st.pageCache handle with
    | none => rfl
    | some dc => exact allDirty_lookup st.pageCache handle dc hall hl
  · rfl

theorem allDirty_eraseA (c : Cache) (handle : Handle)
    (hall : allDirty c = true) : allDirty (eraseA c handle) = true :=
  all_eraseA c handle _ hall

theorem allDirty_flush (pdf : Pdfium) (st : AddonState) (handle : Handle)
    (hall : allDirty st.pageCache = true) :
    allDirty (FlushAndCloseCachedPages pdf st handle).1.pageCache = true := by
  cases h : lookupA st.pageCache handle with
  | none => rw [flush_eq_none pdf st handle h]; exact hall
  | some dc =>
    rw [flush_eq_some pdf st handle dc h]
    exact allDirty_eraseA st.pageCache handle hall

theorem allDirty_discard (st : AddonState) (handle : Handle)
    (hall : allDirty st.pageCache = true) :
    allDirty (DiscardCachedPages st handle).1.pageCache = true := by
  cases h : lookupA st.pageCache handle with
  | none => rw [discard_eq_none st handle h]; exact hall
  | some dc =>
    rw [discard_eq_some st handle dc h]
    exact allDirty_eraseA st.pageCache handle hall

theorem open_pageCache (pdf : Pdfium) (st : AddonState) (bytes : List Nat)
    (password : Option String) :
    (OpenDocument pdf st bytes password).1.pageCache = st.pageCache := by
  unfold OpenDocument
  cases h : pdf.loadMemDocument bytes password <;> rfl

theorem close_pageCache_cases (st : AddonState) (handle : Handle) :
    (CloseDocument st handle).1.pageCache = st.pageCache ∨
    (CloseDocument st handle).1.pageCache =
      (DiscardCachedPages st handle).1.pageCache := by
  unfold CloseDocument
  cases h : lookupA st.documents handle with
  | none => left; rfl
  | some doc => right; rfl

theorem list_state (pdf : Pdfium) (st : AddonState) (handle : Handle)
    (pageIndex : PageIndex) :
    (ListPageObjects pdf st handle pageIndex).1 = st := by
  unfold ListPageObjects
  dsimp only
  repeat' first
  | rfl
  | split

theorem save_state_cases (pdf : Pdfium) (st : AddonState) (handle : Handle) :
    (SaveDocument pdf st handle).1 = st ∨
    (SaveDocument pdf st handle).1 =
      (FlushAndCloseCachedPages pdf st handle).1 := by
  unfold SaveDocument
  cases h : RequireDocument st handle with
  | error e => left; rfl
  | ok doc =>
    dsimp only
    split
    · right; rfl
    · cases h2 : pdf.saveAsCopy doc with
      | none => right; rfl
      | some chunks => right; rfl

theorem editText_state_cases (pdf : Pdfium) (st : AddonState)
    (handle : Handle) (pageIndex : PageIndex) (oid : Int) (txt : String) :
    (EditTextObject pdf st handle pageIndex oid txt).1 = st ∨
    ∃ p, (EditTextObject pdf st handle pageIndex oid txt).1 =
      CachePageDirty st handle pageIndex p := by
  unfold EditTextObject
  cases h : RequireDocument st handle with
  | error e => left; rfl
  | ok doc =>
    dsimp only
    cases h2 : AcquirePage pdf st handle doc pageIndex with
    | mk po rest =>
      obtain ⟨fc, evs⟩ := rest
      cases po with
      | none => left; rfl
      | some page =>
        dsimp only
        split
        · left; rfl
        · split
          · left; rfl
          · split
            · left; rfl
            · right; exact ⟨page, rfl⟩

theorem replaceImage_state_cases (pdf : Pdfium) (st : AddonState)
    (handle : Handle) (pageIndex : PageIndex) (oid : Int) (img : List Nat)
    (fmt : String) :
    (ReplaceImageObject pdf st handle pageIndex oid img fmt).1 = st ∨
    ∃ p, (ReplaceImageObject pdf st handle pageIndex oid img fmt).1 =
      CachePageDirty st handle pageIndex p := by
  unfold ReplaceImageObject
  cases h : RequireDocument st handle with
  | error e => left; rfl
  | ok doc =>
    dsimp only
    cases h2 : AcquirePage pdf st handle doc pageIndex with
    | mk po rest =>
      obtain ⟨fc, evs⟩ := rest
      cases po with
      | none => left; rfl
      | some page =>
        dsimp only
        split
        · left; rfl
        · split
          · left; rfl
          · split
            · split
              · right; exact ⟨page, rfl⟩
              · left; rfl
            · left; rfl

theorem replaceBitmap_state_cases (pdf : Pdfium) (st : AddonState)
    (handle : Handle) (pageIndex : PageIndex) (oid : Int) (bgra : List Nat)
    (w h : Int) :
    (ReplaceImageObjectBitmap pdf st handle pageIndex oid bgra w h).1 =
      st ∨
    ∃ p, (ReplaceImageObjectBitmap pdf st handle pageIndex oid bgra
        w h).1 = CachePageDirty st handle pageIndex p := by
  unfold ReplaceImageObjectBitmap
  dsimp only
  split
  · left; rfl
  · cases h1 : RequireDocument st handle with
    | error e => left; rfl
    | ok doc =>
      dsimp only
      cases h2 : AcquirePage pdf st handle doc pageIndex with
      | mk po rest =>
        obtain ⟨fc, evs⟩ := rest
        cases po with
        | none => left; rfl
        | some page =>
          dsimp only
          split
          · left; rfl
          · split
            · left; rfl
            · split
              · left; rfl
              · split
                · left; rfl
                · right; exact ⟨page, rfl⟩

/-- C10: every entry the page cache ever holds is dirty — the sole
insertion path (`CachePageDirty`, the `markDirty` of the spec) stores
`dirty = true` and no exported operation stores a clean entry or
clears the flag in place — so the invariant is preserved by every
operation, and consequently `flushAndClose` regenerates every entry
it visits: under the invariant its regeneration trace covers the
entire cached-entry list of the handle, not just a subset. -/
theorem C10_cache_allDirty_invariant (pdf : Pdfium) (st : AddonState)
    (op : Op) (hall : allDirty st.pageCache = true) :
    allDirty (runOp pdf st op).1.pageCache = true ∧
    (∀ handle, gensOf (FlushAndCloseCachedPages pdf st handle).2.1 =
      ((lookupA st.pageCache handle).getD []).map (fun e => e.2.page)) := by
  constructor
  · cases op with
    | openDocument bytes password =>
      show allDirty (OpenDocument pdf st bytes password).1.pageCache = true
      rw [open_pageCache]
      exact hall
    | closeDocument handle =>
      show allDirty (CloseDocument st handle).1.pageCache = true
      rcases close_pageCache_cases st handle with hc | hc
      · rw [hc]; exact hall
      · rw [hc]; exact allDirty_discard st handle hall
    | getPageCount handle => exact hall
    | saveDocument handle =>
      show allDirty (SaveDocument pdf st handle).1.pageCache = true
      rcases save_state_cases pdf st handle with hc | hc
      · rw [hc]; exact hall
      · rw [hc]; exact allDirty_flush pdf st handle hall
    | renderPage handle pageIndex scale =>
      show allDirty (RenderPage pdf st handle pageIndex scale).1.pageCache =
        true
      rw [renderPage_state]
      exact hall
    | listPageObjects handle pageIndex =>
      show allDirty (ListPageObjects pdf st handle pageIndex).1.pageCache =
        true
      rw [list_state]
      exact hall
    | editTextObject handle pageIndex oid txt =>
      show allDirty (EditTextObject pdf st handle pageIndex oid
        txt).1.pageCache = true
      rcases editText_state_cases pdf st handle pageIndex oid txt with
        hc | ⟨p, hc⟩
      · rw [hc]; exact hall
      · rw [hc]; exact allDirty_CachePageDirty st handle pageIndex p hall
    | replaceImageObject handle pageIndex oid img fmt =>
      show allDirty (ReplaceImageObject pdf st handle pageIndex oid img
        fmt).1.pageCache = true
      rcases replaceImage_state_cases pdf st handle pageIndex oid img fmt
        with hc | ⟨p, hc⟩
      · rw [hc]; exact hall
      · rw [hc]; exact allDirty_CachePageDirty st handle pageIndex p hall
    | replaceImageObjectBitmap handle pageIndex oid bgra w h =>
      show allDirty (ReplaceImageObjectBitmap pdf st handle pageIndex oid
        bgra w h).1.pageCache = true
      rcases replaceBitmap_state_cases pdf st handle pageIndex oid bgra w h
        with hc | ⟨p, hc⟩
      · rw [hc]; exact hall
      · rw [hc]; exact allDirty_CachePageDirty st handle pageIndex p hall
  · intro handle
    cases h : lookupA st.pageCache handle with
    | none =>
      rw [flush_eq_none pdf st handle h]
      rfl
    | some dc =>
      rw [flush_eq_some pdf st handle dc h]
      dsimp only
      rw [flushLoop_gens]
      have hd : dc.filter (fun e => e.2.dirty) = dc := by
        rw [List.filter_eq_self]
        have := allDirty_lookup st.pageCache handle dc hall h
        rw [List.all_eq_true] at this
        exact this
      rw [hd]
      simp

/-- C10 witness: the invariant holds of `stW`, is preserved by closing
handle 1, and makes the flush trace of every handle regenerate each of
its cached entries. -/
theorem C10_witness :
    allDirty (runOp pdfW stW (Op.closeDocument 1)).1.pageCache = true ∧
    (∀ handle, gensOf (FlushAndCloseCachedPages pdfW stW handle).2.1 =
      ((lookupA stW.pageCache handle).getD []).map (fun e => e.2.page)) :=
  C10_cache_allDirty_invariant pdfW stW (Op.closeDocument 1) (by decide)

end PdfEditor
